import Mathlib

/-!
# Verification of the T900 serial-link data-rate test engine

Shallow embedding of the packet codec, paced sender, stream receiver,
statistics aggregation and Start/Stop lifecycle of the T900 data-rate
test tools, translated from the three program variants:

* the Qt GUI (t900_data_rate_test_qt.py),
* the ViewModel (t900_viewmodel.py),
* the Tk GUI (apps/data_rate/tk/t900_data_rate_test.py).

Bytes on the wire are lists of naturals; Python floats are modelled by
rationals; hashlib.sha256 is modelled by an arbitrary function producing
32 bytes, since every property proved here depends only on the digest
length and on equality of digests, never on the internals of SHA-256.
-/

namespace T900

/-- Wire data: a list of byte values, as produced by Python bytes objects. -/
abbrev Bytes := List Nat

/-- packet_header_size = 44 (4-byte sequence + 8-byte timestamp + 32-byte digest),
set identically in all three variants. -/
def packet_header_size : Nat := 44

/-- struct.pack of an unsigned 32-bit integer, big-endian
(format '>I' in the Qt GUI and ViewModel, '!I' in the Tk GUI). -/
def packBE32 (n : Nat) : Bytes :=
  [n / 2 ^ 24 % 256, n / 2 ^ 16 % 256, n / 2 ^ 8 % 256, n % 256]

/-- struct.unpack of an unsigned 32-bit integer, big-endian, from the
first four bytes of the input. -/
def unpackBE32 (b : Bytes) : Nat :=
  (b.take 4).foldl (fun acc x => acc * 256 + x) 0

/-- _create_packet (identical in all three variants):
big-endian sequence, packed send timestamp, SHA-256 digest of the payload,
then the payload.  The source captures time.time() at call time and packs
it as 8 bytes; those 8 packed bytes are passed in here (tsBytes), since
wall-clock capture is external input.  sha stands for
hashlib.sha256(payload).digest(). -/
def create_packet (sha : Bytes → Bytes) (sequence : Nat) (tsBytes : Bytes)
    (payload : Bytes) : Bytes :=
  packBE32 sequence ++ tsBytes ++ sha payload ++ payload

/-- Result of _parse_packet in the Tk GUI: (sequence, timestamp, hash, payload).
The timestamp is carried as its 8 raw wire bytes; the source's IEEE-754
interpretation of those bytes is not needed by any claim proved here. -/
structure ParsedPacket where
  sequence : Nat
  tsBytes : Bytes
  packet_hash : Bytes
  payload : Bytes
deriving Repr, DecidableEq

/-- _parse_packet (Tk GUI): returns None when the data is shorter than the
44-byte header, otherwise slices data[0:4], data[4:12], data[12:44], data[44:].
struct.unpack on the fixed-size slices cannot fail, so the defensive
except-branch of the source is unreachable once the length guard passes. -/
def parse_packet (data : Bytes) : Option ParsedPacket :=
  if data.length < packet_header_size then none
  else some ⟨unpackBE32 (data.take 4), (data.drop 4).take 8,
             (data.drop 12).take 32, data.drop 44⟩

/-- _verify_packet (Tk GUI): recompute the digest of the payload and compare
with the embedded digest. -/
def verify_packet (sha : Bytes → Bytes) (p : ParsedPacket) : Bool :=
  p.packet_hash == sha p.payload

/-- _validate_packet (Qt GUI and ViewModel): False when shorter than the
header, otherwise compare packet[12:44] against the recomputed digest of
packet[44:].  The latency side effect of the source is omitted: it never
influences the returned Bool. -/
def validate_packet (sha : Bytes → Bytes) (packet : Bytes) : Bool :=
  if packet.length < packet_header_size then false
  else (packet.drop 12).take 32 == sha (packet.drop 44)

theorem packBE32_length (n : Nat) : (packBE32 n).length = 4 := rfl

theorem unpackBE32_packBE32 (n : Nat) (h : n < 2 ^ 32) :
    unpackBE32 (packBE32 n) = n := by
  simp only [packBE32, unpackBE32, List.take, List.foldl]
  omega

/-- C1: for every sequence number below 2^32 and every payload of at least
one byte (and any captured 8-byte timestamp, and any digest function
returning 32 bytes, as SHA-256 does), parsing the frame produced by
create_packet succeeds and yields exactly the encoded sequence, timestamp
bytes, digest and payload; verify_packet accepts the parsed frame, and
validate_packet accepts the raw frame. -/
theorem codec_roundtrip (sha : Bytes → Bytes) (hsha : ∀ p, (sha p).length = 32)
    (seq : Nat) (hseq : seq < 2 ^ 32) (ts payload : Bytes)
    (hts : ts.length = 8) (hpl : 1 ≤ payload.length) :
    parse_packet (create_packet sha seq ts payload)
      = some ⟨seq, ts, sha payload, payload⟩
    ∧ verify_packet sha ⟨seq, ts, sha payload, payload⟩ = true
    ∧ validate_packet sha (create_packet sha seq ts payload) = true := by
  have hlen : (create_packet sha seq ts payload).length = 44 + payload.length := by
    simp [create_packet, packBE32, hts, hsha]
    omega
  have htake4 : (create_packet sha seq ts payload).take 4 = packBE32 seq := by
    unfold create_packet
    rw [List.append_assoc, List.append_assoc]
    exact List.take_left' (packBE32_length seq)
  have hdrop4 : (create_packet sha seq ts payload).drop 4
      = ts ++ (sha payload ++ payload) := by
    unfold create_packet
    rw [List.append_assoc, List.append_assoc]
    exact List.drop_left' (packBE32_length seq)
  have hdrop12 : (create_packet sha seq ts payload).drop 12
      = sha payload ++ payload := by
    have h12 : (12 : Nat) = 4 + 8 := rfl
    rw [h12, ← List.drop_drop, hdrop4]
    exact List.drop_left' hts
  have hdrop44 : (create_packet sha seq ts payload).drop 44 = payload := by
    have h44 : (44 : Nat) = 12 + 32 := rfl
    rw [h44, ← List.drop_drop, hdrop12]
    exact List.drop_left' (hsha payload)
  have hhash : ((create_packet sha seq ts payload).drop 12).take 32 = sha payload := by
    rw [hdrop12]
    exact List.take_left' (hsha payload)
  have hts8 : ((create_packet sha seq ts payload).drop 4).take 8 = ts := by
    rw [hdrop4]
    exact List.take_left' hts
  refine ⟨?_, ?_, ?_⟩
  · unfold parse_packet
    rw [if_neg (by simp only [hlen, packet_header_size]; omega)]
    rw [htake4, hts8, hhash, hdrop44, unpackBE32_packBE32 seq hseq]
  · simp [verify_packet]
  · unfold validate_packet
    rw [if_neg (by simp only [hlen, packet_header_size]; omega), hhash, hdrop44]
    simp

/-- Witness for C1 at a concrete input: sequence 3, timestamp bytes all
zero, payload [1], digest function returning 32 zero bytes. -/
theorem codec_roundtrip_witness :
    parse_packet (create_packet (fun _ => List.replicate 32 0) 3
        (List.replicate 8 0) [1])
      = some ⟨3, List.replicate 8 0, List.replicate 32 0, [1]⟩
    ∧ verify_packet (fun _ => List.replicate 32 0)
        ⟨3, List.replicate 8 0, List.replicate 32 0, [1]⟩ = true
    ∧ validate_packet (fun _ => List.replicate 32 0)
        (create_packet (fun _ => List.replicate 32 0) 3 (List.replicate 8 0) [1])
      = true :=
  codec_roundtrip (fun _ => List.replicate 32 0) (fun _ => by simp)
    3 (by decide) (List.replicate 8 0) [1] (by simp) (by simp)

/-- Next-fire update of one iteration of _sender_thread in the Qt GUI and
ViewModel: after a successful write the source executes
next_packet_time = next_packet_time + write_freq.  fire_time is the
wall-clock moment the iteration actually sent (after the sleep and the
write); the source does not consult it. -/
def qtSenderNextFire (next_packet_time write_freq fire_time : ℚ) : ℚ :=
  next_packet_time + write_freq

/-- Next-fire update of one iteration of _sender_thread in the Tk GUI:
the source records packet_start_time = time.time() just before building
the packet and then executes next_packet_time = packet_start_time +
write_freq, discarding the previous schedule. -/
def tkSenderNextFire (next_packet_time write_freq packet_start_time : ℚ) : ℚ :=
  packet_start_time + write_freq

/-- The sender loop's schedule after a run of iterations: fold the
per-iteration next-fire update over the list of actual fire times,
starting from the initial next_packet_time (= start time in all variants). -/
def senderSchedule (step : ℚ → ℚ → ℚ → ℚ) (start write_freq : ℚ)
    (fire_times : List ℚ) : ℚ :=
  fire_times.foldl (fun next t => step next write_freq t) start

/-- Counterexample to C2: the Tk GUI sender is part of the claimed
"every run of the paced sender loop", yet with scheduled fire time 0,
interval 1 and an iteration that actually fires at time 1/2, it sets the
next fire time to 3/2 = current time + interval, not to 1 = previous
scheduled time + interval. -/
theorem sender_anchoring_counterexample :
    tkSenderNextFire 0 1 (1/2) = 1/2 + 1
    ∧ tkSenderNextFire 0 1 (1/2) ≠ 0 + 1
    ∧ qtSenderNextFire 0 1 (1/2) = 0 + 1 := by
  refine ⟨rfl, by norm_num [tkSenderNextFire], rfl⟩

/-- C2 amended: the Qt GUI and ViewModel senders are schedule-anchored:
after any n iterations, at whatever wall-clock times they actually fired,
the next fire time is start + n * interval, so per-send latency never
accumulates.  The Tk GUI sender instead anchors each next fire time to the
current iteration's actual start time, so after any run its schedule is
(last actual fire time) + interval and lateness accumulates. -/
theorem sender_anchoring (start write_freq t : ℚ) (fire_times : List ℚ) :
    senderSchedule qtSenderNextFire start write_freq fire_times
      = start + fire_times.length * write_freq
    ∧ senderSchedule tkSenderNextFire start write_freq (fire_times ++ [t])
      = t + write_freq := by
  constructor
  · induction fire_times generalizing start with
    | nil => simp [senderSchedule]
    | cons x xs ih =>
      simp only [senderSchedule, List.foldl] at ih ⊢
      rw [ih (qtSenderNextFire start write_freq x)]
      simp only [qtSenderNextFire, List.length_cons]
      push_cast
      ring
  · induction fire_times generalizing start with
    | nil => simp [senderSchedule, tkSenderNextFire]
    | cons x xs ih =>
      simpa only [senderSchedule, List.cons_append, List.foldl] using
        ih (tkSenderNextFire start write_freq x)

/-- _calculate_packet_loss (Qt GUI): 0.0 when nothing was sent, otherwise
(sent - received) / sent * 100. -/
def calculate_packet_loss (packets_sent packets_received : ℚ) : ℚ :=
  if packets_sent = 0 then 0
  else (packets_sent - packets_received) / packets_sent * 100

/-- _calculate_corruption (Qt GUI): 0.0 when received + corrupt = 0,
otherwise corrupt / (received + corrupt) * 100. -/
def calculate_corruption (packets_received packets_corrupt : ℚ) : ℚ :=
  if packets_received + packets_corrupt = 0 then 0
  else packets_corrupt / (packets_received + packets_corrupt) * 100

/-- Packet-loss figure logged by the ViewModel's stop_test:
(sent - received) / sent * 100 when sent > 0, else 0.0. -/
def vmStopLossPercent (packets_sent packets_received : ℚ) : ℚ :=
  if 0 < packets_sent then (packets_sent - packets_received) / packets_sent * 100
  else 0

/-- Corruption figure logged by the ViewModel's stop_test:
corrupt / received * 100 when received > 0, else 0.0 — the denominator is
packets_received alone, not received + corrupt. -/
def vmStopCorruptPercent (packets_received packets_corrupt : ℚ) : ℚ :=
  if 0 < packets_received then packets_corrupt / packets_received * 100
  else 0

/-- Counterexample to C4: in a finalized run with 1 hash-valid and
1 hash-mismatch frame, the claimed formula gives 50 percent, which the
Qt GUI reports, but the ViewModel's stop_test reports 100 percent. -/
theorem corruption_formula_counterexample :
    vmStopCorruptPercent 1 1 = 100
    ∧ (1 : ℚ) / (1 + 1) * 100 = 50
    ∧ vmStopCorruptPercent 1 1 ≠ (1 : ℚ) / (1 + 1) * 100
    ∧ calculate_corruption 1 1 = 50 := by
  norm_num [vmStopCorruptPercent, calculate_corruption]

/-- C4 amended: whenever at least one frame was counted, the Qt GUI's
corruption figure equals corrupt / (received + corrupt) * 100 as claimed;
the ViewModel's stop_test figure instead equals corrupt / received * 100,
and it agrees with the Qt figure exactly when no frame was corrupt. -/
theorem corruption_formula (r c : ℚ) (hr : 0 ≤ r) (hc : 0 ≤ c)
    (h : 0 < r + c) :
    calculate_corruption r c = c / (r + c) * 100
    ∧ (0 < r → (vmStopCorruptPercent r c = calculate_corruption r c ↔ c = 0)) := by
  constructor
  · rw [calculate_corruption, if_neg (ne_of_gt h)]
  · intro hr0
    rw [calculate_corruption, if_neg (ne_of_gt h), vmStopCorruptPercent, if_pos hr0]
    constructor
    · intro heq
      field_simp at heq
      rcases heq with h0 | h0
      · exact h0
      · linarith
    · intro hc0
      rw [hc0]
      simp

/-- Witness for C4's amended theorem at received = 2, corrupt = 1. -/
theorem corruption_formula_witness :
    calculate_corruption 2 1 = 1 / (2 + 1) * 100
    ∧ ((0:ℚ) < 2 → (vmStopCorruptPercent 2 1 = calculate_corruption 2 1 ↔ (1:ℚ) = 0)) :=
  corruption_formula 2 1 (by norm_num) (by norm_num) (by norm_num)

/-- C10: the percentage computations are total at the zero edge:
with zero packets sent the Qt GUI's and the ViewModel's loss figures are
0.0, and with no received frames (valid + corrupt = 0) the corruption
figures are 0.0, so no division with a zero denominator is ever evaluated. -/
theorem zero_denominator_guards :
    (∀ received : ℚ, calculate_packet_loss 0 received = 0)
    ∧ (∀ r c : ℚ, r + c = 0 → calculate_corruption r c = 0)
    ∧ (∀ received : ℚ, vmStopLossPercent 0 received = 0)
    ∧ (∀ c : ℚ, vmStopCorruptPercent 0 c = 0) := by
  refine ⟨fun received => ?_, fun r c h => ?_, fun received => ?_, fun c => ?_⟩
  · rw [calculate_packet_loss, if_pos rfl]
  · rw [calculate_corruption, if_pos h]
  · rw [vmStopLossPercent, if_neg (lt_irrefl 0)]
  · rw [vmStopCorruptPercent, if_neg (lt_irrefl 0)]

/-- Witness for C10 at concrete counters: sent = 0 with 5 received,
and 0 valid + 0 corrupt. -/
theorem zero_denominator_guards_witness :
    calculate_packet_loss 0 5 = 0 ∧ calculate_corruption 0 0 = 0
    ∧ vmStopLossPercent 0 5 = 0 ∧ vmStopCorruptPercent 0 7 = 0 :=
  ⟨zero_denominator_guards.1 5, zero_denominator_guards.2.1 0 0 (by norm_num),
   zero_denominator_guards.2.2.1 5, zero_denominator_guards.2.2.2 7⟩

/-- Per-channel receiver counters (the rstat dictionary of the Qt GUI and
ViewModel, the stats fields of the Tk GUI). -/
structure RStat where
  packets_received : Nat
  packets_corrupt : Nat
  bytes_received_valid : Nat
  bytes_received_total : Nat
deriving Repr, DecidableEq

/-- Counters as reset at the start of a run. -/
def RStat.zero : RStat := ⟨0, 0, 0, 0⟩

/-- One expected_packet_size window of the Qt GUI / ViewModel receiver
loop body: valid → packets_received and bytes_received_valid grow;
invalid → packets_corrupt grows; bytes_received_total always grows by the
window length. -/
def qtProcessWindow (sha : Bytes → Bytes) (packet : Bytes) (r : RStat) : RStat :=
  if validate_packet sha packet then
    { r with packets_received := r.packets_received + 1,
             bytes_received_valid := r.bytes_received_valid + packet.length,
             bytes_received_total := r.bytes_received_total + packet.length }
  else
    { r with packets_corrupt := r.packets_corrupt + 1,
             bytes_received_total := r.bytes_received_total + packet.length }

/-- The Qt GUI / ViewModel inner receiver loop
(while len(buffer) >= expected_packet_size: slice one window, validate,
update counters, drop the window), run to exhaustion on a buffer.
Fuel-indexed for structural recursion; each iteration consumes
expected_packet_size ≥ 1 bytes, so buffer.length fuel is enough
(qtProcessBuffer below).  The guard 0 < expected_packet_size mirrors that
the source loop only terminates for positive window sizes (the GUI
guarantees expected_packet_size ≥ 45). -/
def qtProcessBufferFuel (sha : Bytes → Bytes) (expected_packet_size : Nat) :
    Nat → Bytes → RStat → RStat
  | 0, _, r => r
  | fuel + 1, buffer, r =>
    if expected_packet_size ≤ buffer.length ∧ 0 < expected_packet_size then
      qtProcessBufferFuel sha expected_packet_size fuel
        (buffer.drop expected_packet_size)
        (qtProcessWindow sha (buffer.take expected_packet_size) r)
    else r

/-- The Qt GUI / ViewModel receiver loop applied to a whole byte stream. -/
def qtProcessBuffer (sha : Bytes → Bytes) (expected_packet_size : Nat)
    (buffer : Bytes) (r : RStat) : RStat :=
  qtProcessBufferFuel sha expected_packet_size buffer.length buffer r

/-- One successfully parsed window of the Tk GUI receiver loop body:
bytes_received_total always grows; verified → packets_received and
bytes_received_valid grow; otherwise packets_corrupt grows and
packets_received still grows (the source comments "Still count as
received"). -/
def tkProcessWindow (sha : Bytes → Bytes) (p : ParsedPacket)
    (packet_size : Nat) (r : RStat) : RStat :=
  let r1 := { r with bytes_received_total := r.bytes_received_total + packet_size }
  if verify_packet sha p then
    { r1 with packets_received := r1.packets_received + 1,
              bytes_received_valid := r1.bytes_received_valid + packet_size }
  else
    { r1 with packets_corrupt := r1.packets_corrupt + 1,
              packets_received := r1.packets_received + 1 }

/-- The Tk GUI inner receiver loop: parse the first window; on success
update counters and drop the whole window; on parse failure drop exactly
one byte and retry.  Fuel-indexed; each branch consumes at least one byte. -/
def tkProcessBufferFuel (sha : Bytes → Bytes) (expected_packet_size : Nat) :
    Nat → Bytes → RStat → RStat
  | 0, _, r => r
  | fuel + 1, buffer, r =>
    if expected_packet_size ≤ buffer.length ∧ 0 < expected_packet_size then
      match parse_packet (buffer.take expected_packet_size) with
      | some p =>
        tkProcessBufferFuel sha expected_packet_size fuel
          (buffer.drop expected_packet_size)
          (tkProcessWindow sha p (buffer.take expected_packet_size).length r)
      | none =>
        tkProcessBufferFuel sha expected_packet_size fuel (buffer.drop 1) r
    else r

/-- The Tk GUI receiver loop applied to a whole byte stream. -/
def tkProcessBuffer (sha : Bytes → Bytes) (expected_packet_size : Nat)
    (buffer : Bytes) (r : RStat) : RStat :=
  tkProcessBufferFuel sha expected_packet_size buffer.length buffer r

/-- A concrete stand-in digest function for counterexamples: injective on
payloads of at most 32 bytes and always 32 bytes long, so - like SHA-256
in practice - distinct short payloads get distinct digests. -/
def shaC (p : Bytes) : Bytes := p.take 32 ++ List.replicate (32 - p.length) 0

/-- A valid 45-byte frame: sequence 0, zero timestamp bytes, payload [1]. -/
def frameA : Bytes := create_packet shaC 0 (List.replicate 8 0) [1]

/-- A valid 45-byte frame: sequence 1, zero timestamp bytes, payload [1]. -/
def frameB : Bytes := create_packet shaC 1 (List.replicate 8 0) [1]

/-- Counterexample to C3: the stream frameA ++ [7] ++ frameB consists of
two frameSize-aligned valid frames separated by K = 1 garbage byte
(0 < 1 < 45, not a multiple of 45), yet the Qt GUI / ViewModel receiver
counts only one of the two valid frames and classifies one garbage-shifted
window as corrupt, and the Tk GUI receiver likewise credits only 45 valid
bytes: after the garbage byte no realignment ever happens, because a full
45-byte window always parses structurally (so the drop-one-byte branch
never runs) and a hash mismatch consumes the whole window. -/
theorem resync_counterexample :
    validate_packet shaC frameA = true
    ∧ validate_packet shaC frameB = true
    ∧ (qtProcessBuffer shaC 45 (frameA ++ [7] ++ frameB) RStat.zero).packets_received = 1
    ∧ (qtProcessBuffer shaC 45 (frameA ++ [7] ++ frameB) RStat.zero).packets_corrupt = 1
    ∧ (tkProcessBuffer shaC 45 (frameA ++ [7] ++ frameB) RStat.zero).bytes_received_valid = 45
    ∧ (tkProcessBuffer shaC 45 (frameA ++ [7] ++ frameB) RStat.zero).packets_corrupt = 1 := by
  decide

/-- On a positive window size, processing the empty buffer leaves the
counters unchanged. -/
theorem qtProcessBufferFuel_nil (sha : Bytes → Bytes) (size : Nat)
    (hsize : 0 < size) (fuel : Nat) (r : RStat) :
    qtProcessBufferFuel sha size fuel [] r = r := by
  cases fuel with
  | zero => rfl
  | succ k =>
    rw [qtProcessBufferFuel, if_neg]
    intro hcontra
    rw [List.length_nil] at hcontra
    omega

/-- With enough fuel, a concatenation of hash-valid frames of exactly the
window size is consumed frame by frame, each one counted as received. -/
theorem qtProcessBufferFuel_frames (sha : Bytes → Bytes) (size : Nat)
    (hsize : 0 < size) :
    ∀ (frames : List Bytes) (fuel : Nat) (r : RStat),
      (∀ f ∈ frames, f.length = size) →
      (∀ f ∈ frames, validate_packet sha f = true) →
      frames.flatten.length ≤ fuel →
      (qtProcessBufferFuel sha size fuel frames.flatten r).packets_received
        = r.packets_received + frames.length := by
  intro frames
  induction frames with
  | nil =>
    intro fuel r _ _ _
    simp [qtProcessBufferFuel_nil sha size hsize]
  | cons f fs ih =>
    intro fuel r hlen hval hfuel
    have hf : f.length = size := hlen f (List.mem_cons_self f fs)
    have hjoin : (f :: fs).flatten = f ++ fs.flatten := by simp
    rw [hjoin] at hfuel ⊢
    have hlenapp : (f ++ fs.flatten).length = size + fs.flatten.length := by
      simp [hf]
    cases fuel with
    | zero => omega
    | succ k =>
      rw [qtProcessBufferFuel, if_pos (by omega)]
      rw [List.take_left' hf, List.drop_left' hf]
      rw [ih k (qtProcessWindow sha f r)
        (fun g hg => hlen g (List.mem_cons_of_mem f hg))
        (fun g hg => hval g (List.mem_cons_of_mem f hg)) (by omega)]
      have hv : validate_packet sha f = true := hval f (List.mem_cons_self f fs)
      rw [qtProcessWindow, if_pos hv]
      simp
      omega

/-- C3 amended: realignment never happens.  What does hold of the code:
(a) a byte stream consisting solely of frameSize-aligned valid frames with
no garbage between them is fully recovered - every frame is counted as
received; and (b) structural decode of any full window (length at least
the 44-byte header) always succeeds, so the Tk GUI's drop-one-byte branch
is unreachable for the validated frame sizes (≥ 45) and garbage between
frames is instead absorbed into whole misaligned windows counted corrupt,
as resync_counterexample shows concretely. -/
theorem resync_amended (sha : Bytes → Bytes) (size : Nat) (hsize : 0 < size)
    (frames : List Bytes)
    (hlen : ∀ f ∈ frames, f.length = size)
    (hval : ∀ f ∈ frames, validate_packet sha f = true) :
    (qtProcessBuffer sha size frames.flatten RStat.zero).packets_received
      = frames.length
    ∧ ∀ w : Bytes, packet_header_size ≤ w.length → (parse_packet w).isSome = true := by
  constructor
  · rw [qtProcessBuffer]
    rw [qtProcessBufferFuel_frames sha size hsize frames frames.flatten.length
      RStat.zero hlen hval (le_refl _)]
    simp [RStat.zero]
  · intro w hw
    rw [parse_packet, if_neg (by omega)]
    rfl

/-- Witness for C3's amended theorem: the single-frame stream [frameA] is
fully counted, and the concrete 44-byte window of zeros parses. -/
theorem resync_amended_witness :
    (qtProcessBuffer shaC 45 [frameA].flatten RStat.zero).packets_received = 1
    ∧ (parse_packet (List.replicate 44 0)).isSome = true :=
  ⟨(resync_amended shaC 45 (by decide) [frameA] (by decide) (by decide)).1,
   (resync_amended shaC 45 (by decide) [frameA] (by decide) (by decide)).2
     (List.replicate 44 0) (by simp [packet_header_size])⟩

/-- One window of the Qt GUI / ViewModel receiver preserves the byte-count
coupling between the packet counters and the byte counters. -/
theorem qtProcessWindow_invariant (sha : Bytes → Bytes) (size : Nat)
    (w : Bytes) (r : RStat) (hw : w.length = size)
    (h1 : r.bytes_received_total = (r.packets_received + r.packets_corrupt) * size)
    (h2 : r.bytes_received_valid = r.packets_received * size) :
    (qtProcessWindow sha w r).bytes_received_total
      = ((qtProcessWindow sha w r).packets_received
          + (qtProcessWindow sha w r).packets_corrupt) * size
    ∧ (qtProcessWindow sha w r).bytes_received_valid
      = (qtProcessWindow sha w r).packets_received * size := by
  rw [qtProcessWindow]
  split
  · simp only []
    constructor
    · rw [hw, h1]; ring
    · rw [hw, h2]; ring
  · simp only []
    constructor
    · rw [hw, h1]; ring
    · exact h2

/-- The invariant propagates through the whole fuel-indexed loop. -/
theorem qtProcessBufferFuel_invariant (sha : Bytes → Bytes) (size : Nat) :
    ∀ (fuel : Nat) (buffer : Bytes) (r : RStat),
      r.bytes_received_total = (r.packets_received + r.packets_corrupt) * size →
      r.bytes_received_valid = r.packets_received * size →
      (qtProcessBufferFuel sha size fuel buffer r).bytes_received_total
        = ((qtProcessBufferFuel sha size fuel buffer r).packets_received
            + (qtProcessBufferFuel sha size fuel buffer r).packets_corrupt) * size
      ∧ (qtProcessBufferFuel sha size fuel buffer r).bytes_received_valid
        = (qtProcessBufferFuel sha size fuel buffer r).packets_received * size := by
  intro fuel
  induction fuel with
  | zero => intro buffer r h1 h2; exact ⟨h1, h2⟩
  | succ k ih =>
    intro buffer r h1 h2
    rw [qtProcessBufferFuel]
    split
    · rename_i hguard
      have hw : (buffer.take size).length = size := by
        rw [List.length_take]
        omega
      have hstep := qtProcessWindow_invariant sha size (buffer.take size) r hw h1 h2
      exact ih (buffer.drop size) (qtProcessWindow sha (buffer.take size) r)
        hstep.1 hstep.2
    · exact ⟨h1, h2⟩

/-- C9: starting from the counters as reset at Start, after the Qt GUI /
ViewModel receiver loop has processed any byte stream in frameSize
windows, each channel's counters satisfy
bytes_received_total = (packets_received + packets_corrupt) * frameSize and
bytes_received_valid = packets_received * frameSize; in particular
bytes_received_valid ≤ bytes_received_total and both byte counters are
multiples of the frame size. -/
theorem receiver_byte_invariant (sha : Bytes → Bytes) (size : Nat)
    (buffer : Bytes) :
    (qtProcessBuffer sha size buffer RStat.zero).bytes_received_total
      = ((qtProcessBuffer sha size buffer RStat.zero).packets_received
          + (qtProcessBuffer sha size buffer RStat.zero).packets_corrupt) * size
    ∧ (qtProcessBuffer sha size buffer RStat.zero).bytes_received_valid
      = (qtProcessBuffer sha size buffer RStat.zero).packets_received * size
    ∧ (qtProcessBuffer sha size buffer RStat.zero).bytes_received_valid
      ≤ (qtProcessBuffer sha size buffer RStat.zero).bytes_received_total := by
  have h := qtProcessBufferFuel_invariant sha size buffer.length buffer RStat.zero
    (by simp [RStat.zero]) (by simp [RStat.zero])
  rw [qtProcessBuffer]
  refine ⟨h.1, h.2, ?_⟩
  rw [h.1, h.2]
  exact Nat.mul_le_mul_right size (by omega)

/-- The combined ("legacy") receive figures written into the shared stats
dictionary by _recalculate_receiver_totals.  Rational-valued because the
ViewModel's averaging produces Python floats. -/
structure CombinedTotals where
  packets_received : ℚ
  packets_corrupt : ℚ
  bytes_received_total : ℚ
  bytes_received_valid : ℚ
deriving Repr, DecidableEq

/-- _recalculate_receiver_totals (Qt GUI): the combined figures are plain
sums over all per-receiver stats. -/
def qtRecalcTotals (receiver_stats : List RStat) : CombinedTotals :=
  ⟨((receiver_stats.map (fun r => r.packets_received)).sum : ℕ),
   ((receiver_stats.map (fun r => r.packets_corrupt)).sum : ℕ),
   ((receiver_stats.map (fun r => r.bytes_received_total)).sum : ℕ),
   ((receiver_stats.map (fun r => r.bytes_received_valid)).sum : ℕ)⟩

/-- _recalculate_receiver_totals (ViewModel): sums over the active
receivers divided by the active receiver count (count 1 when the active
slice is empty), i.e. averages. -/
def vmRecalcTotals (receiver_stats : List RStat) (active_receivers : Nat) :
    CombinedTotals :=
  let active_stats :=
    if 0 < active_receivers then receiver_stats.take active_receivers else []
  let receiver_count : ℚ :=
    if active_stats.isEmpty then 1 else (active_stats.length : ℚ)
  ⟨((active_stats.map (fun r => r.packets_received)).sum : ℕ) / receiver_count,
   ((active_stats.map (fun r => r.packets_corrupt)).sum : ℕ) / receiver_count,
   ((active_stats.map (fun r => r.bytes_received_total)).sum : ℕ) / receiver_count,
   ((active_stats.map (fun r => r.bytes_received_valid)).sum : ℕ) / receiver_count⟩

/-- Counterexample to C6: with two active receivers of which only the
first saw the single (valid, 45-byte) frame, the Qt GUI's combined
packets_received is 1 while the ViewModel's is 1/2 - the two aggregation
policies disagree on the same counter vector. -/
theorem combined_policy_counterexample :
    (qtRecalcTotals [⟨1, 0, 45, 45⟩, ⟨0, 0, 0, 0⟩]).packets_received = 1
    ∧ (vmRecalcTotals [⟨1, 0, 45, 45⟩, ⟨0, 0, 0, 0⟩] 2).packets_received = 1/2
    ∧ qtRecalcTotals [⟨1, 0, 45, 45⟩, ⟨0, 0, 0, 0⟩]
        ≠ vmRecalcTotals [⟨1, 0, 45, 45⟩, ⟨0, 0, 0, 0⟩] 2 := by
  refine ⟨by norm_num [qtRecalcTotals], by norm_num [vmRecalcTotals], ?_⟩
  intro hcontra
  have h := congrArg CombinedTotals.packets_received hcontra
  norm_num [qtRecalcTotals, vmRecalcTotals] at h

/-- C6 amended: the two variants use different combining policies.
The Qt GUI sums the per-receiver counters; the ViewModel averages them
over the active receivers, so with every receiver active each ViewModel
combined figure times the receiver count equals the corresponding Qt GUI
figure, and the two aggregations coincide exactly in the single-receiver
case. -/
theorem combined_policy (rs : List RStat) (h : rs ≠ []) :
    (vmRecalcTotals rs rs.length).packets_received * rs.length
      = (qtRecalcTotals rs).packets_received
    ∧ (vmRecalcTotals rs rs.length).packets_corrupt * rs.length
      = (qtRecalcTotals rs).packets_corrupt
    ∧ (vmRecalcTotals rs rs.length).bytes_received_total * rs.length
      = (qtRecalcTotals rs).bytes_received_total
    ∧ (vmRecalcTotals rs rs.length).bytes_received_valid * rs.length
      = (qtRecalcTotals rs).bytes_received_valid
    ∧ (∀ r : RStat, vmRecalcTotals [r] 1 = qtRecalcTotals [r]) := by
  have hpos : 0 < rs.length := List.length_pos.mpr h
  have hempty : rs.isEmpty = false := by
    cases rs with
    | nil => exact absurd rfl h
    | cons a l => rfl
  have hcount : ((rs.length : ℚ)) ≠ 0 := by
    exact_mod_cast Nat.pos_iff_ne_zero.mp hpos
  have hdivmul : ∀ s : ℕ, ((s : ℚ) / (rs.length : ℚ)) * (rs.length : ℚ) = (s : ℚ) :=
    fun s => div_mul_cancel₀ (s : ℚ) hcount
  refine ⟨?_, ?_, ?_, ?_, ?_⟩
  · simp only [vmRecalcTotals, qtRecalcTotals, if_pos hpos, List.take_length, hempty,
      Bool.false_eq_true, if_false]
    exact hdivmul _
  · simp only [vmRecalcTotals, qtRecalcTotals, if_pos hpos, List.take_length, hempty,
      Bool.false_eq_true, if_false]
    exact hdivmul _
  · simp only [vmRecalcTotals, qtRecalcTotals, if_pos hpos, List.take_length, hempty,
      Bool.false_eq_true, if_false]
    exact hdivmul _
  · simp only [vmRecalcTotals, qtRecalcTotals, if_pos hpos, List.take_length, hempty,
      Bool.false_eq_true, if_false]
    exact hdivmul _
  · intro r
    simp [vmRecalcTotals, qtRecalcTotals]

/-- Witness for C6's amended theorem on the concrete counter vector of
combined_policy_counterexample. -/
theorem combined_policy_witness :
    (vmRecalcTotals [⟨1, 0, 45, 45⟩, ⟨0, 0, 0, 0⟩]
        ([⟨1, 0, 45, 45⟩, ⟨0, 0, 0, 0⟩] : List RStat).length).packets_received
        * (([⟨1, 0, 45, 45⟩, ⟨0, 0, 0, 0⟩] : List RStat).length : ℚ)
      = (qtRecalcTotals [⟨1, 0, 45, 45⟩, ⟨0, 0, 0, 0⟩]).packets_received :=
  (combined_policy [⟨1, 0, 45, 45⟩, ⟨0, 0, 0, 0⟩] (by simp)).1

/-- Python truthiness of an optional integer (None and 0 are falsy). -/
def pyTruthyNat : Option Nat → Bool
  | none => false
  | some n => n != 0

/-- Python truthiness of an optional float (None and 0.0 are falsy). -/
def pyTruthyRat : Option ℚ → Bool
  | none => false
  | some x => x != 0

/-- Count-mode capture in _monitor_test_end (Qt GUI and ViewModel): once
packets_sent has reached the target the monitor stores
stats['end_time'] = time.time() immediately, before any drain wait;
otherwise end_time is left alone. -/
def monitorCountCapture (packets_sent target : Nat) (now : ℚ)
    (end_time : Option ℚ) : Option ℚ :=
  if target ≤ packets_sent then some now else end_time

/-- Elapsed-time computation of _stop_test (Qt GUI) / stop_test (ViewModel)
once start_time is set: with a truthy target_packets and a truthy captured
end_time, elapsed = end_time - start_time; in every other case
elapsed = now - start_time, where now is the wall clock when Stop runs. -/
def stopTestElapsed (target_packets : Option Nat) (end_time : Option ℚ)
    (start_time now : ℚ) : ℚ :=
  if pyTruthyNat target_packets && pyTruthyRat end_time then
    end_time.getD 0 - start_time
  else now - start_time

/-- C5: in a packet-count run with positive target T, once the monitor
observes packetsSent ≥ T at wall-clock time tTarget it captures
end_time = tTarget, and the finalized elapsed time computed by Stop equals
tTarget - startTime whatever the wall-clock time at which Stop eventually
runs - so the post-target drain wait cannot affect it. -/
theorem count_mode_elapsed (target packets_sent : Nat) (tTarget start_time now1 now2 : ℚ)
    (htarget : target ≠ 0) (hsent : target ≤ packets_sent) (ht : tTarget ≠ 0) :
    monitorCountCapture packets_sent target tTarget none = some tTarget
    ∧ stopTestElapsed (some target) (monitorCountCapture packets_sent target tTarget none)
        start_time now1 = tTarget - start_time
    ∧ stopTestElapsed (some target) (monitorCountCapture packets_sent target tTarget none)
        start_time now1
      = stopTestElapsed (some target) (monitorCountCapture packets_sent target tTarget none)
          start_time now2 := by
  have hcap : monitorCountCapture packets_sent target tTarget none = some tTarget := by
    rw [monitorCountCapture, if_pos hsent]
  have hguard : (pyTruthyNat (some target) && pyTruthyRat (some tTarget)) = true := by
    simp [pyTruthyNat, pyTruthyRat, htarget, ht]
  refine ⟨hcap, ?_, ?_⟩
  · rw [hcap, stopTestElapsed, if_pos hguard]
    rfl
  · rw [hcap, stopTestElapsed, if_pos hguard, stopTestElapsed, if_pos hguard]

/-- Witness for C5: target 50 reached at sent = 50, captured at time 10,
start time 1, Stop running at time 11 or at time 12. -/
theorem count_mode_elapsed_witness :
    monitorCountCapture 50 50 10 none = some 10
    ∧ stopTestElapsed (some 50) (monitorCountCapture 50 50 10 none) 1 11 = 10 - 1
    ∧ stopTestElapsed (some 50) (monitorCountCapture 50 50 10 none) 1 11
      = stopTestElapsed (some 50) (monitorCountCapture 50 50 10 none) 1 12 :=
  count_mode_elapsed 50 50 10 1 11 12 (by decide) (by decide) (by norm_num)

/-- The engine state touched by _stop_test in the Qt GUI.
joins_performed counts how many times the join-workers block has run. -/
structure QtEngineState where
  test_running : Bool
  start_time : Option ℚ
  end_time : Option ℚ
  elapsed_time : Option ℚ
  target_packets : Option Nat
  receiver_stats : List RStat
  combined : CombinedTotals
  data_rate_total_bps : Option ℚ
  data_rate_valid_bps : Option ℚ
  joins_performed : Nat
deriving DecidableEq

/-- _stop_test (Qt GUI): return unchanged when already stopped and
finalized (test_running false and end_time not None); otherwise clear the
running flag, join the workers, recompute the combined totals, compute
elapsed time (packet-count mode uses the captured end_time) and the
unidirectional data rates when positive, and finally set
end_time = time.time(). -/
def qtStopTest (s : QtEngineState) (now : ℚ) : QtEngineState :=
  if s.test_running = false ∧ s.end_time ≠ none then s
  else
    let s1 : QtEngineState :=
      { s with test_running := false,
               joins_performed := s.joins_performed + 1,
               combined := qtRecalcTotals s.receiver_stats }
    let s2 : QtEngineState :=
      if pyTruthyRat s1.start_time then
        let elapsed :=
          stopTestElapsed s1.target_packets s1.end_time (s1.start_time.getD 0) now
        let s2a : QtEngineState := { s1 with elapsed_time := some elapsed }
        if 0 < elapsed then
          { s2a with
            data_rate_total_bps := some (s2a.combined.bytes_received_total * 8 / elapsed),
            data_rate_valid_bps := some (s2a.combined.bytes_received_valid * 8 / elapsed) }
        else s2a
      else s1
    { s2 with end_time := some now }

/-- The engine state touched by stop_test in the ViewModel. -/
structure VmEngineState where
  test_running : Bool
  start_time : Option ℚ
  end_time : Option ℚ
  elapsed_time : Option ℚ
  target_packets : Option Nat
  receiver_stats : List RStat
  active_receivers : Nat
  combined : CombinedTotals
  data_rate_total_bps : Option ℚ
  data_rate_valid_bps : Option ℚ
  joins_performed : Nat
deriving DecidableEq

/-- stop_test (ViewModel): like the Qt GUI's _stop_test but guarded on
elapsed_time being already set ("Already stopped and finalized"), and the
combined totals are the ViewModel's averages. -/
def vmStopTest (s : VmEngineState) (now : ℚ) : VmEngineState :=
  if s.test_running = false ∧ s.elapsed_time ≠ none then s
  else
    let s1 : VmEngineState :=
      { s with test_running := false,
               joins_performed := s.joins_performed + 1,
               combined := vmRecalcTotals s.receiver_stats s.active_receivers }
    let s2 : VmEngineState :=
      if pyTruthyRat s1.start_time then
        let elapsed :=
          stopTestElapsed s1.target_packets s1.end_time (s1.start_time.getD 0) now
        let s2a : VmEngineState := { s1 with elapsed_time := some elapsed }
        if 0 < elapsed then
          { s2a with
            data_rate_total_bps := some (s2a.combined.bytes_received_total * 8 / elapsed),
            data_rate_valid_bps := some (s2a.combined.bytes_received_valid * 8 / elapsed) }
        else s2a
      else s1
    { s2 with end_time := some now }

/-- A finalized engine (not running, end_time recorded) is left untouched
by a further _stop_test call in the Qt GUI. -/
theorem qtStopTest_finalized (s : QtEngineState) (now : ℚ)
    (h1 : s.test_running = false) (h2 : s.end_time ≠ none) :
    qtStopTest s now = s := by
  rw [qtStopTest, if_pos ⟨h1, h2⟩]

/-- Any _stop_test call leaves the Qt engine with the running flag down. -/
theorem qtStopTest_not_running (s : QtEngineState) (now : ℚ) :
    (qtStopTest s now).test_running = false := by
  rw [qtStopTest]
  split
  · rename_i h; exact h.1
  · dsimp only
    split
    · split <;> rfl
    · rfl

/-- A _stop_test call that actually runs records an end_time. -/
theorem qtStopTest_end_time (s : QtEngineState) (now : ℚ)
    (h : ¬(s.test_running = false ∧ s.end_time ≠ none)) :
    (qtStopTest s now).end_time = some now := by
  rw [qtStopTest, if_neg h]

/-- A finalized ViewModel engine is left untouched by a further stop_test. -/
theorem vmStopTest_finalized (s : VmEngineState) (now : ℚ)
    (h1 : s.test_running = false) (h2 : s.elapsed_time ≠ none) :
    vmStopTest s now = s := by
  rw [vmStopTest, if_pos ⟨h1, h2⟩]

/-- Any stop_test call leaves the ViewModel engine not running. -/
theorem vmStopTest_not_running (s : VmEngineState) (now : ℚ) :
    (vmStopTest s now).test_running = false := by
  rw [vmStopTest]
  split
  · rename_i h; exact h.1
  · dsimp only
    split
    · split <;> rfl
    · rfl

/-- When the run was started (truthy start_time), stop_test finalizes:
elapsed_time is set. -/
theorem vmStopTest_elapsed_set (s : VmEngineState) (now : ℚ)
    (hstart : pyTruthyRat s.start_time = true) :
    (vmStopTest s now).elapsed_time ≠ none := by
  rw [vmStopTest]
  split
  · rename_i h; exact h.2
  · dsimp only
    rw [if_pos hstart]
    split <;> simp

/-- C7: Stop is idempotent.  For the Qt GUI unconditionally, and for the
ViewModel whenever the run was started (truthy start_time, true of every
finalized run): a second Stop call, at any later wall-clock time, returns
the state of the first call unchanged - every finalized statistic is
identical and the join-workers block does not run again (joins_performed
is part of the preserved state). -/
theorem stop_idempotent (s : QtEngineState) (v : VmEngineState) (t1 t2 : ℚ)
    (hv : pyTruthyRat v.start_time = true) :
    qtStopTest (qtStopTest s t1) t2 = qtStopTest s t1
    ∧ vmStopTest (vmStopTest v t1) t2 = vmStopTest v t1 := by
  constructor
  · by_cases h : s.test_running = false ∧ s.end_time ≠ none
    · rw [qtStopTest_finalized s t1 h.1 h.2, qtStopTest_finalized s t2 h.1 h.2]
    · exact qtStopTest_finalized _ t2 (qtStopTest_not_running s t1)
        (by rw [qtStopTest_end_time s t1 h]; exact Option.some_ne_none t1)
  · exact vmStopTest_finalized _ t2 (vmStopTest_not_running v t1)
      (vmStopTest_elapsed_set v t1 hv)

/-- Witness for C7 on a concrete running engine pair: one receiver having
seen one valid 45-byte frame, start time 1, stopped at times 10 and 20. -/
theorem stop_idempotent_witness :
    qtStopTest (qtStopTest
        ⟨true, some 1, none, none, some 50, [⟨1, 0, 45, 45⟩], ⟨0, 0, 0, 0⟩, none, none, 0⟩ 10) 20
      = qtStopTest
        ⟨true, some 1, none, none, some 50, [⟨1, 0, 45, 45⟩], ⟨0, 0, 0, 0⟩, none, none, 0⟩ 10
    ∧ vmStopTest (vmStopTest
        ⟨true, some 1, none, none, some 50, [⟨1, 0, 45, 45⟩], 1, ⟨0, 0, 0, 0⟩, none, none, 0⟩ 10) 20
      = vmStopTest
        ⟨true, some 1, none, none, some 50, [⟨1, 0, 45, 45⟩], 1, ⟨0, 0, 0, 0⟩, none, none, 0⟩ 10 :=
  stop_idempotent
    ⟨true, some 1, none, none, some 50, [⟨1, 0, 45, 45⟩], ⟨0, 0, 0, 0⟩, none, none, 0⟩
    ⟨true, some 1, none, none, some 50, [⟨1, 0, 45, 45⟩], 1, ⟨0, 0, 0, 0⟩, none, none, 0⟩
    10 20 (by decide)

/-- The worker threads spawned when a Start call goes through. -/
structure SpawnedWorkers where
  receiver_threads : Nat
  sender_threads : Nat
  monitor_threads : Nat
deriving Repr, DecidableEq

/-- TestSpec validation and worker spawning of _start_test (Qt GUI),
with the serial connections assumed in place: the only TestSpec check is
total_size ≥ packet_header_size + 1; write_freq is not validated.  On
acceptance one receiver thread per configured receiver, one sender thread
and - when an auto-stop condition exists - one monitor thread are spawned;
none means the start was rejected before spawning anything. -/
def qtStartTest (total_size : Nat) (write_freq : ℚ) (test_length : Option ℚ)
    (target_packets : Option Nat) (num_receivers : Nat) : Option SpawnedWorkers :=
  if total_size < packet_header_size + 1 then none
  else some ⟨num_receivers, 1,
    if pyTruthyRat test_length || pyTruthyNat target_packets then 1 else 0⟩

/-- TestSpec validation and worker spawning of start_test (ViewModel):
identical checks to the Qt GUI (packet size only), spawning one receiver
thread per active receiver. -/
def vmStartTest (total_size : Nat) (write_freq : ℚ) (test_length : Option ℚ)
    (target_packets : Option Nat) (active_receivers : Nat) : Option SpawnedWorkers :=
  if total_size < packet_header_size + 1 then none
  else some ⟨active_receivers, 1,
    if pyTruthyRat test_length || pyTruthyNat target_packets then 1 else 0⟩

/-- True when an optional test length is present but non-positive. -/
def optRatNonpos : Option ℚ → Bool
  | none => false
  | some l => decide (l ≤ 0)

/-- True when an optional packet-count target is present but zero
(the Tk GUI rejects target_packets ≤ 0, which over naturals means 0). -/
def optNatZero : Option Nat → Bool
  | none => false
  | some t => decide (t = 0)

/-- TestSpec validation and worker spawning of _start_test (Tk GUI,
unidirectional): rejects total_size below header + 1, write_freq ≤ 0,
a present non-positive test_length and a present zero target_packets;
then spawns one sender, one receiver and always a monitor thread. -/
def tkStartTest (total_size : Nat) (write_freq : ℚ) (test_length : Option ℚ)
    (target_packets : Option Nat) : Option SpawnedWorkers :=
  if total_size < packet_header_size + 1 then none
  else if write_freq ≤ 0 then none
  else if optRatNonpos test_length then none
  else if optNatZero target_packets then none
  else some ⟨1, 1, 1⟩

/-- Counterexample to C8: a TestSpec with the minimal legal packet size 45
but pacing interval 0 (non-positive) is accepted by the Qt GUI's and the
ViewModel's Start, which spawn sender, receiver and monitor workers and
begin the run instead of rejecting it synchronously. -/
theorem start_validation_counterexample :
    (0 : ℚ) ≤ 0
    ∧ qtStartTest 45 0 none (some 50) 3 = some ⟨3, 1, 1⟩
    ∧ vmStartTest 45 0 none (some 50) 3 = some ⟨3, 1, 1⟩
    ∧ tkStartTest 45 0 none (some 50) = none := by
  refine ⟨le_refl 0, ?_, ?_, ?_⟩
  · rw [qtStartTest, if_neg (by norm_num [packet_header_size])]
    norm_num [pyTruthyRat, pyTruthyNat]
  · rw [vmStartTest, if_neg (by norm_num [packet_header_size])]
    norm_num [pyTruthyRat, pyTruthyNat]
  · rw [tkStartTest, if_neg (by norm_num [packet_header_size]), if_pos (le_refl 0)]

/-- C8 amended: every variant rejects a packet size below header + 1 = 45
synchronously, spawning no worker; only the Tk GUI additionally rejects a
non-positive pacing interval, while the Qt GUI and the ViewModel accept
any interval (start_validation_counterexample shows a run beginning with
interval 0). -/
theorem start_validation (total_size : Nat) (write_freq : ℚ)
    (test_length : Option ℚ) (target_packets : Option Nat) (n : Nat) :
    (total_size < packet_header_size + 1 →
      qtStartTest total_size write_freq test_length target_packets n = none
      ∧ vmStartTest total_size write_freq test_length target_packets n = none
      ∧ tkStartTest total_size write_freq test_length target_packets = none)
    ∧ (write_freq ≤ 0 →
      tkStartTest total_size write_freq test_length target_packets = none) := by
  constructor
  · intro hsz
    exact ⟨by rw [qtStartTest, if_pos hsz], by rw [vmStartTest, if_pos hsz],
      by rw [tkStartTest, if_pos hsz]⟩
  · intro hfreq
    rw [tkStartTest]
    by_cases hsz : total_size < packet_header_size + 1
    · rw [if_pos hsz]
    · rw [if_neg hsz, if_pos hfreq]

/-- Witness for C8's amended theorem: packet size 44 is rejected by all
variants; packet size 145 with interval 0 is rejected by the Tk GUI. -/
theorem start_validation_witness :
    (qtStartTest 44 1 none (some 5) 3 = none
      ∧ vmStartTest 44 1 none (some 5) 3 = none
      ∧ tkStartTest 44 1 none (some 5) = none)
    ∧ tkStartTest 145 0 none (some 5) = none :=
  ⟨(start_validation 44 1 none (some 5) 3).1 (by norm_num [packet_header_size]),
   (start_validation 145 0 none (some 5) 3).2 (le_refl 0)⟩

end T900
